import Mathlib

/-!
Shallow embedding of the article listing, feed, favorite-aggregation and
tag-assignment core of the golang-gin-realworld-example-app repository
(`articles/models.go`), together with theorems checking the repository's
natural-language specification against it.

The relational store is modelled as an explicit state value (`DB`) holding
each table as a list of rows in insertion (rowid) order; a query without an
ORDER BY clause returns rows in that order, matching SQLite's behaviour on a
plain table scan.  Soft deletes are modelled as removal, since every query
issued by this core excludes soft-deleted rows.  Storage failures on the
operations whose error the Go code actually checks (the two association
fetches in `FindManyArticle` and the transaction commit) are modelled by an
explicit fault-injection record, since a pure model has no spontaneous
failures.
-/

namespace RealWorld

/-- `users.UserModel`. Modelled from the spec: the user/profile/follow
subsystem is an external collaborator (spec section 1 and 6) and its source is
not part of the verified core; only the fields read by `articles/models.go`
(`ID`, `Username`) are represented. -/
structure UserModel where
  id : Nat
  username : String
  deriving Repr, DecidableEq

/-- `articles.ArticleUserModel` (gorm.Model ID plus the `UserModelID`
foreign key; the embedded association objects are query results, not stored
columns). -/
structure ArticleUserModel where
  id : Nat
  userModelID : Nat
  deriving Repr, DecidableEq

/-- `articles.ArticleModel` (stored columns; the `Tags` many-to-many
association lives in the `articleTags` join table, and `updatedAt` is the
gorm-maintained `updated_at` timestamp used by `Order("updated_at desc")`). -/
structure ArticleModel where
  id : Nat
  slug : String
  title : String
  description : String
  body : String
  authorID : Nat
  updatedAt : Nat
  deriving Repr, DecidableEq

/-- `articles.TagModel`. -/
structure TagModel where
  id : Nat
  tag : String
  deriving Repr, DecidableEq

/-- `articles.FavoriteModel`: `favoriteID` is the favorited article's id,
`favoriteByID` the favoriting `ArticleUserModel`'s id. -/
structure FavoriteModel where
  id : Nat
  favoriteID : Nat
  favoriteByID : Nat
  deriving Repr, DecidableEq

/-- `articles.CommentModel` (stored columns only; comments are out of core
scope but part of the data model). -/
structure CommentModel where
  id : Nat
  articleID : Nat
  authorID : Nat
  body : String
  deriving Repr, DecidableEq

/-- The relational store: one list of rows per table, in insertion (rowid)
order, plus the autoincrement counters for the tables this core inserts
into.  `articleTags` is the `article_tags` many-to-many join table as
(article id, tag id) pairs; `follows` is the follow relation owned by the
external user subsystem, as (follower user id, followed user id) pairs. -/
structure DB where
  users : List UserModel
  articleUsers : List ArticleUserModel
  articles : List ArticleModel
  tags : List TagModel
  articleTags : List (Nat × Nat)
  favorites : List FavoriteModel
  comments : List CommentModel
  follows : List (Nat × Nat)
  nextArticleUserId : Nat
  nextTagId : Nat
  nextFavoriteId : Nat
  deriving Repr, DecidableEq

/-- Fault injection for the storage operations whose error result the Go
code checks: the association fetch in the tag path, the association fetch in
the author path, and the transaction commit. -/
structure Fault where
  tagAssocFindFails : Bool
  authorAssocFindFails : Bool
  commitFails : Bool
  deriving Repr, DecidableEq

/-- No storage failure. -/
def noFault : Fault := ⟨false, false, false⟩

/-- Error of `tx.Commit()`: present exactly when the commit fault fires. -/
def commitResult (fault : Fault) : Option String :=
  if fault.commitFails then some "commit failed" else none

/-- Digit-string parser underlying `strconv.Atoi`: `none` unless every
character is a decimal digit. -/
def parseDigits : List Char → Nat → Option Nat
  | [], acc => some acc
  | c :: cs, acc =>
    if c.isDigit then parseDigits cs (acc * 10 + (c.toNat - 48)) else none

/-- `strconv.Atoi`: optional sign followed by at least one decimal digit. -/
def atoi (s : String) : Option Int :=
  match s.toList with
  | [] => none
  | '-' :: rest =>
    if rest.isEmpty then none else (parseDigits rest 0).map (fun n => -(n : Int))
  | '+' :: rest =>
    if rest.isEmpty then none else (parseDigits rest 0).map (fun n => (n : Int))
  | cs => (parseDigits cs 0).map (fun n => (n : Int))

/-- gorm `Offset(off).Limit(lim)` applied to a row list: a non-positive
offset is a no-op, a negative limit cancels the limit (gorm emits
`LIMIT -1`). -/
def applyOffsetLimit (off lim : Int) (l : List α) : List α :=
  let l1 := l.drop off.toNat
  if lim < 0 then l1 else l1.take lim.toNat

/-- Insert one article into a list sorted by `updated_at` descending,
keeping earlier rows first among equal timestamps. -/
def insertByUpdatedDesc (a : ArticleModel) : List ArticleModel → List ArticleModel
  | [] => [a]
  | b :: bs =>
    if a.updatedAt ≤ b.updatedAt then b :: insertByUpdatedDesc a bs
    else a :: b :: bs

/-- `Order("updated_at desc")`: sort rows by `updated_at` descending. -/
def sortByUpdatedDesc : List ArticleModel → List ArticleModel
  | [] => []
  | a :: as => insertByUpdatedDesc a (sortByUpdatedDesc as)

/-- `GetArticleUserModel`: identity value 0 short-circuits to a zero-value
record without touching storage; otherwise a `FirstOrCreate` keyed on
`UserModelID` (the new row takes the next autoincrement id). -/
def GetArticleUserModel (db : DB) (userModel : UserModel) :
    DB × ArticleUserModel :=
  if userModel.id = 0 then (db, ⟨0, 0⟩)
  else
    match db.articleUsers.find? (fun a => a.userModelID == userModel.id) with
    | some a => (db, a)
    | none =>
      let a : ArticleUserModel := ⟨db.nextArticleUserId, userModel.id⟩
      ({ db with
          articleUsers := db.articleUsers ++ [a],
          nextArticleUserId := db.nextArticleUserId + 1 }, a)

/-- The grouped count query of `BatchGetFavoriteCounts`
(`SELECT favorite_id, COUNT(*) ... GROUP BY favorite_id`): one row per
distinct `favorite_id` present among the given favorite rows. -/
def groupFavoriteCounts (favs : List FavoriteModel) : List (Nat × Nat) :=
  ((favs.map (fun f => f.favoriteID)).dedup).map
    (fun k => (k, (favs.filter (fun f => f.favoriteID == k)).length))

/-- `BatchGetFavoriteCounts`: returns the id-to-count map as an association
list together with the number of storage queries issued. -/
def BatchGetFavoriteCounts (db : DB) (articleIDs : List Nat) :
    List (Nat × Nat) × Nat :=
  if articleIDs.isEmpty then ([], 0)
  else
    (groupFavoriteCounts
      (db.favorites.filter (fun f => articleIDs.contains f.favoriteID)), 1)

/-- `BatchGetFavoriteStatus`: returns the id-to-favorited map as an
association list together with the number of storage queries issued. -/
def BatchGetFavoriteStatus (db : DB) (articleIDs : List Nat) (userID : Nat) :
    List (Nat × Bool) × Nat :=
  if articleIDs.isEmpty || userID == 0 then ([], 0)
  else
    ((db.favorites.filter
        (fun f => articleIDs.contains f.favoriteID && f.favoriteByID == userID)).map
      (fun f => (f.favoriteID, true)), 1)

/-- `favoriteBy`: a `FirstOrCreate` on the (article, favoriting author)
pair.  The gorm struct condition omits zero-valued fields, so an id of 0 in
either position matches any value of that column. -/
def favoriteBy (db : DB) (articleID userID : Nat) : DB × Option String :=
  match db.favorites.find?
      (fun f => (articleID == 0 || f.favoriteID == articleID) &&
                (userID == 0 || f.favoriteByID == userID)) with
  | some _ => (db, none)
  | none =>
    ({ db with
        favorites := db.favorites ++ [⟨db.nextFavoriteId, articleID, userID⟩],
        nextFavoriteId := db.nextFavoriteId + 1 }, none)

/-- `unFavoriteBy`: delete every favorite row matching the raw SQL condition
`favorite_id = ? AND favorite_by_id = ?`; deleting nothing is not an
error. -/
def unFavoriteBy (db : DB) (articleID userID : Nat) : DB × Option String :=
  ({ db with
      favorites := db.favorites.filter
        (fun f => !(f.favoriteID == articleID && f.favoriteByID == userID)) },
   none)

/-- `db.Create(&TagModel{Tag: name})`: fails exactly on a violation of the
unique index on `tag`. -/
def createTag (db : DB) (name : String) : DB × Except String TagModel :=
  if db.tags.any (fun t => t.tag == name) then
    (db, Except.error "UNIQUE constraint failed: tag_models.tag")
  else
    let t : TagModel := ⟨db.nextTagId, name⟩
    ({ db with tags := db.tags ++ [t], nextTagId := db.nextTagId + 1 },
     Except.ok t)

/-- The per-name loop of `setTags`: the pre-built lookup map is consulted but
never extended, so a repeated name missing from the map attempts a second
create, hits the unique-index conflict, and takes the refetch fallback. -/
def setTagsLoop (existingTagMap : List (String × TagModel)) :
    DB → List String → List TagModel → DB × Except String (List TagModel)
  | db, [], acc => (db, Except.ok acc)
  | db, name :: rest, acc =>
    match existingTagMap.lookup name with
    | some t => setTagsLoop existingTagMap db rest (acc ++ [t])
    | none =>
      match createTag db name with
      | (db2, Except.ok t) => setTagsLoop existingTagMap db2 rest (acc ++ [t])
      | (db2, Except.error e) =>
        match db2.tags.find? (fun t => t.tag == name) with
        | some t => setTagsLoop existingTagMap db2 rest (acc ++ [t])
        | none => (db2, Except.error e)

/-- `setTags`: batch-fetch the existing tags among the requested names, then
resolve each requested name in order; returns the new store and either the
tag list to associate or the propagated creation error. -/
def setTags (db : DB) (tags : List String) : DB × Except String (List TagModel) :=
  if tags.isEmpty then (db, Except.ok [])
  else
    let existingTags := db.tags.filter (fun t => tags.contains t.tag)
    let existingTagMap := existingTags.map (fun t => (t.tag, t))
    setTagsLoop existingTagMap db tags []

/-- The (articles, total count, error) result triple of a listing call. -/
abbrev FindResult := List ArticleModel × Nat × Option String

/-- The tag branch of `FindManyArticle`: look up the tag row by exact name
(`tagModel.ID` stays 0 when absent), page the tag's article association in
table order, count the full association, then re-fetch the page of ids with
associations preloaded, ordered by `updated_at desc`.  The paging fetch is
the one checked fallible read; its failure rolls back and returns before the
count is computed. -/
def tagPath (db : DB) (fault : Fault) (tag : String) (offInt limInt : Int) :
    DB × FindResult :=
  let tagModel := (db.tags.find? (fun t => t.tag == tag)).getD ⟨0, ""⟩
  if tagModel.id ≠ 0 then
    if fault.tagAssocFindFails then
      (db, ([], 0, some "association find failed"))
    else
      let assoc := db.articles.filter
        (fun a => db.articleTags.contains (a.id, tagModel.id))
      let tempModels := applyOffsetLimit offInt limInt assoc
      let count := assoc.length
      let models :=
        if tempModels.isEmpty then []
        else
          sortByUpdatedDesc (db.articles.filter
            (fun a => (tempModels.map (fun m => m.id)).contains a.id))
      (db, (models, count, commitResult fault))
  else (db, ([], 0, commitResult fault))

/-- The author branch of `FindManyArticle`: resolve the user by exact
username (zero-value when absent), project it through
`GetArticleUserModel` (a find-or-create issued on the base connection, not
the listing transaction), count the author's article association, then page
it; the paging fetch is the checked fallible read and runs after the count,
so its failure returns the already-computed count. -/
def authorPath (db : DB) (fault : Fault) (author : String)
    (offInt limInt : Int) : DB × FindResult :=
  let userModel := (db.users.find? (fun u => u.username == author)).getD ⟨0, ""⟩
  let res := GetArticleUserModel db userModel
  let db2 := res.1
  let aum := res.2
  if aum.id ≠ 0 then
    let assoc := db2.articles.filter (fun a => a.authorID == aum.id)
    let count := assoc.length
    if fault.authorAssocFindFails then
      (db2, ([], count, some "association find failed"))
    else
      let tempModels := applyOffsetLimit offInt limInt assoc
      let models :=
        if tempModels.isEmpty then []
        else
          sortByUpdatedDesc (db2.articles.filter
            (fun a => (tempModels.map (fun m => m.id)).contains a.id))
      (db2, (models, count, commitResult fault))
  else (db2, ([], 0, commitResult fault))

/-- The favorited branch of `FindManyArticle`: resolve the favoriting user
(again through the find-or-create projection), page that user's favorite
rows in table order, count the full favorite association, then batch-fetch
the favorited articles ordered by `updated_at desc`. -/
def favoritedPath (db : DB) (fault : Fault) (favorited : String)
    (offInt limInt : Int) : DB × FindResult :=
  let userModel :=
    (db.users.find? (fun u => u.username == favorited)).getD ⟨0, ""⟩
  let res := GetArticleUserModel db userModel
  let db2 := res.1
  let aum := res.2
  if aum.id ≠ 0 then
    let favs := db2.favorites.filter (fun f => f.favoriteByID == aum.id)
    let favoriteModels := applyOffsetLimit offInt limInt favs
    let count := favs.length
    let models :=
      if favoriteModels.isEmpty then []
      else
        sortByUpdatedDesc (db2.articles.filter
          (fun a => (favoriteModels.map (fun f => f.favoriteID)).contains a.id))
    (db2, (models, count, commitResult fault))
  else (db2, ([], 0, commitResult fault))

/-- The unfiltered branch of `FindManyArticle`: a full-table count, then the
page applied directly to the main listing query.  The Go code attaches no
`Order` clause here, so rows come back in table (rowid) order. -/
def unfilteredPath (db : DB) (fault : Fault) (offInt limInt : Int) :
    DB × FindResult :=
  let count := db.articles.length
  let models := applyOffsetLimit offInt limInt db.articles
  (db, (models, count, commitResult fault))

/-- `FindManyArticle`: coerce the pagination strings (unparsable offset
falls back to 0, unparsable limit to 20), then dispatch on the mutually
exclusive filter precedence tag > author > favorited > none. -/
def FindManyArticle (db : DB) (fault : Fault)
    (tag author limit offset favorited : String) : DB × FindResult :=
  let offInt : Int := match atoi offset with | some v => v | none => 0
  let limInt : Int := match atoi limit with | some v => v | none => 20
  if tag ≠ "" then tagPath db fault tag offInt limInt
  else if author ≠ "" then authorPath db fault author offInt limInt
  else if favorited ≠ "" then favoritedPath db fault favorited offInt limInt
  else unfilteredPath db fault offInt limInt

/-- `users.UserModel.GetFollowings`. Modelled from the spec: the follow
subsystem is consumed only through "get the list of external user identities
followed by user X", which returns an empty list, never an error, for a user
following no one (spec section 6). -/
def GetFollowings (db : DB) (user : UserModel) : List UserModel :=
  db.users.filter (fun u => db.follows.contains (user.id, u.id))

/-- Result of `GetArticleFeed`, instrumented with the number of queries
issued against the article table. -/
structure FeedResult where
  articles : List ArticleModel
  count : Nat
  error : Option String
  articleTableQueries : Nat
  deriving Repr, DecidableEq

/-- `GetArticleFeed`: resolve the viewer's followings; when non-empty,
batch-resolve them to `ArticleUserModel` ids in one query, then count and
page (ordered by `updated_at desc`) the articles authored by that id set.
When the viewer follows nobody the article table is never queried. -/
def GetArticleFeed (db : DB) (fault : Fault) (viewer : UserModel)
    (limit offset : String) : FeedResult :=
  let offInt : Int := match atoi offset with | some v => v | none => 0
  let limInt : Int := match atoi limit with | some v => v | none => 20
  let followings := GetFollowings db viewer
  if followings.isEmpty then ⟨[], 0, commitResult fault, 0⟩
  else
    let followingUserIDs := followings.map (fun u => u.id)
    let articleUserModels :=
      db.articleUsers.filter (fun a => followingUserIDs.contains a.userModelID)
    let authorIDs := articleUserModels.map (fun a => a.id)
    if authorIDs.isEmpty then ⟨[], 0, commitResult fault, 0⟩
    else
      let matching := db.articles.filter (fun a => authorIDs.contains a.authorID)
      let count := matching.length
      let models := applyOffsetLimit offInt limInt (sortByUpdatedDesc matching)
      ⟨models, count, commitResult fault, 2⟩

/-- Number of favorite rows for a given (article, favoriting author) pair. -/
def pairCount (db : DB) (articleID userID : Nat) : Nat :=
  (db.favorites.filter
    (fun f => f.favoriteID == articleID && f.favoriteByID == userID)).length

/-- Number of favorite rows referencing a given article. -/
def favRowCount (db : DB) (articleID : Nat) : Nat :=
  (db.favorites.filter (fun f => f.favoriteID == articleID)).length

/-- The Favorite-table invariant: at most one row per (article, favoriting
author) pair. -/
def atMostOnePerPair (db : DB) : Prop :=
  ∀ a u, pairCount db a u ≤ 1

end RealWorld

namespace RealWorld

/-- Store for the listing scenario of the spec: author A (user 1, article
author 1) publishes article "a", then author B (user 2, article author 2)
publishes article "b" (later `updated_at`). -/
def dbTwoAuthors : DB :=
  { users := [⟨1, "A"⟩, ⟨2, "B"⟩],
    articleUsers := [⟨1, 1⟩, ⟨2, 2⟩],
    articles := [⟨1, "a", "a", "", "", 1, 1⟩, ⟨2, "b", "b", "", "", 2, 2⟩],
    tags := [], articleTags := [], favorites := [], comments := [],
    follows := [],
    nextArticleUserId := 3, nextTagId := 1, nextFavoriteId := 1 }

/-- C1: the spec asserts that every filter path of `FindManyArticle`,
including the unfiltered one, returns the page ordered by
most-recently-updated first, so that after A publishes "a" and B publishes
"b" the unfiltered listing (limit 10, offset 0) is "b" before "a" with
total count 2.  The unfiltered branch of the code attaches no
`Order("updated_at desc")` clause, so the page comes back in table (rowid)
order: "a" before "b".  The total count 2 and the nil error do hold. -/
theorem C1_unfiltered_listing_is_in_table_order :
    ((FindManyArticle dbTwoAuthors noFault "" "" "10" "0" "").2.1.map
        (fun a => a.slug) = ["a", "b"])
    ∧ ((FindManyArticle dbTwoAuthors noFault "" "" "10" "0" "").2.1.map
        (fun a => a.slug) ≠ ["b", "a"])
    ∧ (FindManyArticle dbTwoAuthors noFault "" "" "10" "0" "").2.2.1 = 2
    ∧ (FindManyArticle dbTwoAuthors noFault "" "" "10" "0" "").2.2.2 = none := by
  decide

/-- Store with no tag rows and fresh autoincrement counters. -/
def dbNoTags : DB :=
  { users := [⟨1, "A"⟩], articleUsers := [⟨1, 1⟩],
    articles := [⟨1, "a", "a", "", "", 1, 1⟩],
    tags := [], articleTags := [], favorites := [], comments := [],
    follows := [],
    nextArticleUserId := 2, nextTagId := 1, nextFavoriteId := 1 }

/-- C8: `setTags` does not deduplicate requested names.  On a store with no
prior tags, input `["go", "programming", "go"]` succeeds, leaves exactly the
tags "go" and "programming" in storage, and produces one association entry
per input name — the repeated "go" yields a repeated entry (the second
occurrence takes the unique-violation refetch fallback, because the lookup
map built before the loop is never extended with newly created tags). -/
theorem C8_setTags_keeps_duplicate_names :
    setTags dbNoTags ["go", "programming", "go"] =
      ({ dbNoTags with
          tags := [⟨1, "go"⟩, ⟨2, "programming"⟩], nextTagId := 3 },
       Except.ok [⟨1, "go"⟩, ⟨2, "programming"⟩, ⟨1, "go"⟩])
    ∧ ((setTags dbNoTags ["go", "programming", "go"]).2.toOption.map
        (fun l => l.map (fun t => t.tag))) =
      some ["go", "programming", "go"]
    ∧ (dbNoTags.tags.all (fun t => t.tag ≠ "go") = true) := by
  exact ⟨rfl, by decide, by decide⟩

end RealWorld

namespace RealWorld

/-- C3: filter precedence in `FindManyArticle` is mutually exclusive and
ordered tag > author > favorited > none: with a non-empty tag every other
filter argument is ignored (so tag plus author equals tag alone), and with
an empty tag and a non-empty author the favorited argument is ignored. -/
theorem C3_filter_precedence (db : DB) (fault : Fault)
    (tag author limit offset favorited : String) :
    (tag ≠ "" →
      FindManyArticle db fault tag author limit offset favorited =
        FindManyArticle db fault tag "" limit offset "")
    ∧ (tag = "" → author ≠ "" →
      FindManyArticle db fault tag author limit offset favorited =
        FindManyArticle db fault "" author limit offset "") := by
  constructor
  · intro h
    simp only [FindManyArticle, if_pos h]
  · intro ht ha
    subst ht
    simp only [FindManyArticle, ne_eq, not_true_eq_false, if_false, if_pos ha,
      ite_not, if_neg ha]

/-- C4: unparsable pagination strings are coerced to defaults rather than
failing: when neither `limit` nor `offset` parses as an integer, both
`FindManyArticle` and `GetArticleFeed` behave exactly as with limit "20"
and offset "0" (in particular the malformed input causes no error). -/
theorem C4_pagination_coercion (db : DB) (fault : Fault) (viewer : UserModel)
    (tag author favorited limit offset : String)
    (hl : atoi limit = none) (ho : atoi offset = none) :
    FindManyArticle db fault tag author limit offset favorited =
      FindManyArticle db fault tag author "20" "0" favorited
    ∧ GetArticleFeed db fault viewer limit offset =
      GetArticleFeed db fault viewer "20" "0" := by
  have h20 : atoi "20" = some 20 := by decide
  have h0 : atoi "0" = some 0 := by decide
  constructor
  · simp only [FindManyArticle, hl, ho, h20, h0]
  · simp only [GetArticleFeed, hl, ho, h20, h0]

/-- Witness for C3 at concrete inputs: tag "t" together with author "A"
gives the same call result as tag "t" alone. -/
theorem C3_filter_precedence_witness :
    FindManyArticle dbTwoAuthors noFault "t" "A" "10" "0" "B" =
      FindManyArticle dbTwoAuthors noFault "t" "" "10" "0" "" :=
  (C3_filter_precedence dbTwoAuthors noFault "t" "A" "10" "0" "B").1
    (by decide)

/-- Witness for C4 at concrete inputs: limit and offset "invalid" behave as
limit "20", offset "0". -/
theorem C4_pagination_coercion_witness :
    FindManyArticle dbTwoAuthors noFault "" "" "invalid" "invalid" "" =
      FindManyArticle dbTwoAuthors noFault "" "" "20" "0" ""
    ∧ GetArticleFeed dbTwoAuthors noFault ⟨1, "A"⟩ "invalid" "invalid" =
      GetArticleFeed dbTwoAuthors noFault ⟨1, "A"⟩ "20" "0" :=
  C4_pagination_coercion dbTwoAuthors noFault ⟨1, "A"⟩ "" "" "" "invalid"
    "invalid" (by decide) (by decide)

end RealWorld

namespace RealWorld

/-- C9: when the viewer's followed-user set is empty, `GetArticleFeed`
returns an empty article list, a zero count and no error, and issues no
query against the article table, whatever else is in storage. -/
theorem C9_feed_empty_followings (db : DB) (viewer : UserModel)
    (limit offset : String) (h : GetFollowings db viewer = []) :
    GetArticleFeed db noFault viewer limit offset =
      ⟨[], 0, none, 0⟩ := by
  simp only [GetArticleFeed, h, List.isEmpty_nil, if_pos]
  rfl

/-- Witness for C9: in the two-author store, user C (id 3) follows nobody,
yet articles by A and B exist. -/
theorem C9_feed_empty_followings_witness :
    GetArticleFeed dbTwoAuthors noFault ⟨3, "C"⟩ "10" "0" = ⟨[], 0, none, 0⟩ :=
  C9_feed_empty_followings dbTwoAuthors ⟨3, "C"⟩ "10" "0" (by decide)

/-- C5: a filtered listing whose filter subject has no exact name match — no
tag row named `tag`, or no user row named `author` or `favorited` — returns
an empty article list, zero count and nil error (and leaves the store
unchanged). -/
theorem C5_unknown_filter_subject_is_empty (db : DB) (limit offset : String) :
    (∀ tag author favorited : String, tag ≠ "" →
      (∀ t ∈ db.tags, t.tag ≠ tag) →
      FindManyArticle db noFault tag author limit offset favorited =
        (db, ([], 0, none)))
    ∧ (∀ author favorited : String, author ≠ "" →
      (∀ u ∈ db.users, u.username ≠ author) →
      FindManyArticle db noFault "" author limit offset favorited =
        (db, ([], 0, none)))
    ∧ (∀ favorited : String, favorited ≠ "" →
      (∀ u ∈ db.users, u.username ≠ favorited) →
      FindManyArticle db noFault "" "" limit offset favorited =
        (db, ([], 0, none))) := by
  refine ⟨fun tag author favorited ht hno => ?_,
    fun author favorited ha hno => ?_, fun favorited hf hno => ?_⟩
  · have hfind : db.tags.find? (fun t => t.tag == tag) = none :=
      List.find?_eq_none.mpr (fun t htm => by simp [hno t htm])
    simp [FindManyArticle, ht, tagPath, hfind, commitResult, noFault]
  · have hfind : db.users.find? (fun u => u.username == author) = none :=
      List.find?_eq_none.mpr (fun u hu => by simp [hno u hu])
    simp [FindManyArticle, ha, authorPath, hfind, GetArticleUserModel,
      commitResult, noFault]
  · have hfind : db.users.find? (fun u => u.username == favorited) = none :=
      List.find?_eq_none.mpr (fun u hu => by simp [hno u hu])
    simp [FindManyArticle, hf, favoritedPath, hfind, GetArticleUserModel,
      commitResult, noFault]

/-- Witness for C5: in the two-author store, filtering by the unknown tag
"nosuchtag", the unknown author "nobody", and the unknown favoriting user
"nobody" each return empty results with zero count and nil error. -/
theorem C5_unknown_filter_subject_is_empty_witness :
    FindManyArticle dbTwoAuthors noFault "nosuchtag" "" "10" "0" "" =
      (dbTwoAuthors, ([], 0, none))
    ∧ FindManyArticle dbTwoAuthors noFault "" "nobody" "10" "0" "" =
      (dbTwoAuthors, ([], 0, none))
    ∧ FindManyArticle dbTwoAuthors noFault "" "" "10" "0" "nobody" =
      (dbTwoAuthors, ([], 0, none)) :=
  ⟨(C5_unknown_filter_subject_is_empty dbTwoAuthors "10" "0").1 "nosuchtag"
      "" "" (by decide) (by decide),
   (C5_unknown_filter_subject_is_empty dbTwoAuthors "10" "0").2.1 "nobody"
      "" (by decide) (by decide),
   (C5_unknown_filter_subject_is_empty dbTwoAuthors "10" "0").2.2 "nobody"
      (by decide) (by decide)⟩

end RealWorld

namespace RealWorld

/-- Every branch of `GetArticleFeed` reports exactly the commit error. -/
lemma GetArticleFeed_error (db : DB) (fault : Fault) (viewer : UserModel)
    (limit offset : String) :
    (GetArticleFeed db fault viewer limit offset).error = commitResult fault := by
  unfold GetArticleFeed
  dsimp only
  repeat' split
  all_goals rfl

/-- Every branch of `FindManyArticle` reports either the commit error or an
association-fetch failure, and in the latter case the article list is
empty. -/
lemma FindManyArticle_error_cases (db : DB) (fault : Fault)
    (tag author limit offset favorited : String) :
    (FindManyArticle db fault tag author limit offset favorited).2.2.2 =
      commitResult fault
    ∨ ((FindManyArticle db fault tag author limit offset favorited).2.2.2 =
        some "association find failed"
      ∧ (FindManyArticle db fault tag author limit offset favorited).2.1 = []) := by
  unfold FindManyArticle tagPath authorPath favoritedPath unfilteredPath
  dsimp only
  repeat' split
  all_goals simp

/-- C2 (amended): a non-nil error accompanied by a non-empty article list
occurs only on commit failure (where the fully computed page and count are
returned with the error); an association-fetch error always comes with an
empty article list, and `GetArticleFeed` errors only on commit failure. -/
theorem C2_error_propagation_shape (db : DB) (fault : Fault)
    (viewer : UserModel) (tag author limit offset favorited : String) :
    ((FindManyArticle db fault tag author limit offset favorited).2.2.2 = none
      ∨ (FindManyArticle db fault tag author limit offset favorited).2.1 = []
      ∨ fault.commitFails = true)
    ∧ ((GetArticleFeed db fault viewer limit offset).error = none
      ∨ fault.commitFails = true) := by
  constructor
  · rcases FindManyArticle_error_cases db fault tag author limit offset
        favorited with h | ⟨_, h2⟩
    · by_cases hc : fault.commitFails
      · exact Or.inr (Or.inr hc)
      · exact Or.inl (by rw [h]; simp [commitResult, hc])
    · exact Or.inr (Or.inl h2)
  · by_cases hc : fault.commitFails
    · exact Or.inr hc
    · exact Or.inl (by rw [GetArticleFeed_error]; simp [commitResult, hc])

/-- C2 counterexample: in the two-author store, an author-path listing for
"A" whose association fetch fails returns the already-computed total count 1
together with the error — neither a fully valid pair with nil error nor
all-zero results with the error. -/
theorem C2_counterexample_partial_count_with_error :
    (FindManyArticle dbTwoAuthors ⟨false, true, false⟩ "" "A" "10" "0" "").2 =
      ([], 1, some "association find failed")
    ∧ (FindManyArticle dbTwoAuthors ⟨false, true, false⟩ "" "A" "10" "0" "").2.2.2
        ≠ none
    ∧ (FindManyArticle dbTwoAuthors ⟨false, true, false⟩ "" "A" "10" "0" "").2.2.1
        ≠ 0 := by
  decide

end RealWorld

namespace RealWorld

/-- Lookup in an association list whose entries are produced by a keying
function: the key is absent exactly when no source element produces it. -/
lemma lookup_map_eq_none {α β : Type} (g : α → Nat) (c : α → β)
    (l : List α) (i : Nat) :
    ((l.map (fun x => (g x, c x))).lookup i = none) ↔ ∀ x ∈ l, g x ≠ i := by
  induction l with
  | nil => simp
  | cons hd tl ih =>
    simp only [List.map_cons, List.lookup]
    cases hb : (i == g hd) with
    | true =>
      refine iff_of_false (by simp) (fun hall => ?_)
      exact hall hd (List.mem_cons_self hd tl) (beq_iff_eq.mp hb).symm
    | false =>
      rw [ih]
      constructor
      · intro hall x hx
        rcases List.mem_cons.mp hx with rfl | hx'
        · exact fun he => (beq_eq_false_iff_ne.mp hb) he.symm
        · exact hall x hx'
      · intro hall x hx
        exact hall x (List.mem_cons_of_mem _ hx)

/-- C6: both batch favorite resolvers return an empty map with no storage
query on an empty identifier set; `BatchGetFavoriteStatus` also
short-circuits for viewer id 0; and, within the queried identifier set, an
absent key means zero favorite rows (counts) respectively no favorite row
by that viewer (status). -/
theorem C6_batch_favorite_aggregation (db : DB) (ids : List Nat)
    (uid i : Nat) :
    BatchGetFavoriteCounts db [] = ([], 0)
    ∧ BatchGetFavoriteStatus db [] uid = ([], 0)
    ∧ BatchGetFavoriteStatus db ids 0 = ([], 0)
    ∧ (i ∈ ids →
        (((BatchGetFavoriteCounts db ids).1.lookup i = none) ↔
          favRowCount db i = 0))
    ∧ (i ∈ ids → uid ≠ 0 →
        (((BatchGetFavoriteStatus db ids uid).1.lookup i = none) ↔
          pairCount db i uid = 0)) := by
  refine ⟨rfl, rfl, by simp [BatchGetFavoriteStatus], fun hi => ?_,
    fun hi huid => ?_⟩
  · have hne : ids ≠ [] := List.ne_nil_of_mem hi
    have h1 : (BatchGetFavoriteCounts db ids).1 =
        groupFavoriteCounts
          (db.favorites.filter (fun f => ids.contains f.favoriteID)) := by
      simp [BatchGetFavoriteCounts, List.isEmpty_iff, hne]
    rw [h1, groupFavoriteCounts, lookup_map_eq_none]
    constructor
    · intro hall
      rw [favRowCount, List.length_eq_zero, List.filter_eq_nil_iff]
      intro f hf hp
      have hfid : f.favoriteID = i := by simpa using hp
      refine hall i ?_ rfl
      rw [List.mem_dedup, List.mem_map]
      exact ⟨f, List.mem_filter.mpr ⟨hf, by simp [List.elem_iff, hfid, hi]⟩,
        hfid⟩
    · intro h0 x hx
      rintro rfl
      rw [List.mem_dedup, List.mem_map] at hx
      obtain ⟨f, hf, hfid⟩ := hx
      rw [favRowCount, List.length_eq_zero, List.filter_eq_nil_iff] at h0
      exact h0 f (List.mem_filter.mp hf).1 (by simp [hfid])
  · have hne : ids ≠ [] := List.ne_nil_of_mem hi
    have h1 : (BatchGetFavoriteStatus db ids uid).1 =
        (db.favorites.filter
          (fun f => ids.contains f.favoriteID && f.favoriteByID == uid)).map
          (fun f => (f.favoriteID, true)) := by
      simp [BatchGetFavoriteStatus, List.isEmpty_iff, hne, huid]
    rw [h1, lookup_map_eq_none (fun f : FavoriteModel => f.favoriteID)
      (fun _ => true)]
    constructor
    · intro hall
      rw [pairCount, List.length_eq_zero, List.filter_eq_nil_iff]
      intro f hf hp
      simp only [Bool.and_eq_true, beq_iff_eq] at hp
      exact hall f (List.mem_filter.mpr ⟨hf,
        by simp [List.elem_iff, hp.1, hi, hp.2]⟩) hp.1
    · intro h0 f hf hfid
      have hf' := List.mem_filter.mp hf
      have hcond := hf'.2
      simp only [Bool.and_eq_true, beq_iff_eq, List.elem_iff] at hcond
      rw [pairCount, List.length_eq_zero, List.filter_eq_nil_iff] at h0
      exact h0 f hf'.1 (by simp [hfid, hcond.2])

/-- Store with one favorite row: viewer 1 favorited article 1. -/
def dbOneFavorite : DB :=
  { users := [⟨1, "A"⟩], articleUsers := [⟨1, 1⟩],
    articles := [⟨1, "a", "a", "", "", 1, 1⟩, ⟨2, "b", "b", "", "", 1, 2⟩],
    tags := [], articleTags := [], favorites := [⟨1, 1, 1⟩], comments := [],
    follows := [],
    nextArticleUserId := 2, nextTagId := 1, nextFavoriteId := 2 }

/-- Witness for C6 at concrete inputs: querying articles 1 and 2, article 2
is absent from both maps and indeed has no favorite rows. -/
theorem C6_batch_favorite_aggregation_witness :
    BatchGetFavoriteCounts dbOneFavorite [] = ([], 0)
    ∧ (((BatchGetFavoriteCounts dbOneFavorite [1, 2]).1.lookup 2 = none) ↔
        favRowCount dbOneFavorite 2 = 0)
    ∧ (((BatchGetFavoriteStatus dbOneFavorite [1, 2] 1).1.lookup 2 = none) ↔
        pairCount dbOneFavorite 2 1 = 0) :=
  ⟨(C6_batch_favorite_aggregation dbOneFavorite [1, 2] 1 2).1,
   (C6_batch_favorite_aggregation dbOneFavorite [1, 2] 1 2).2.2.2.1
     (by decide),
   (C6_batch_favorite_aggregation dbOneFavorite [1, 2] 1 2).2.2.2.2
     (by decide) (by decide)⟩

end RealWorld

namespace RealWorld

/-- With non-zero article and author ids the gorm struct condition of
`favoriteBy` degenerates to an exact match on the (article, author) pair. -/
lemma favoriteBy_nonzero (db : DB) (aid uid : Nat)
    (ha : aid ≠ 0) (hu : uid ≠ 0) :
    favoriteBy db aid uid =
      match db.favorites.find?
          (fun f => f.favoriteID == aid && f.favoriteByID == uid) with
      | some _ => (db, none)
      | none =>
        ({ db with
            favorites := db.favorites ++ [⟨db.nextFavoriteId, aid, uid⟩],
            nextFavoriteId := db.nextFavoriteId + 1 }, none) := by
  rw [favoriteBy]
  have h1 : (aid == 0) = false := beq_eq_false_iff_ne.mpr ha
  have h2 : (uid == 0) = false := beq_eq_false_iff_ne.mpr hu
  simp only [h1, h2, Bool.false_or]

/-- A pair has no favorite row exactly when no stored row matches it. -/
lemma pairCount_eq_zero_iff (db : DB) (a u : Nat) :
    pairCount db a u = 0 ↔
      ∀ f ∈ db.favorites,
        ¬((f.favoriteID == a && f.favoriteByID == u) = true) := by
  rw [pairCount, List.length_eq_zero, List.filter_eq_nil_iff]

/-- C7: with the at-most-one-row-per-pair invariant in force, favoriting the
same (article, author) pair twice errors on neither call and leaves exactly
one favorite row for the pair; unfavoriting a pair with no matching row
succeeds without error and leaves the store untouched; and both `favoriteBy`
and `unFavoriteBy` preserve the invariant. -/
theorem C7_favorite_pair_invariant (db : DB) (aid uid : Nat)
    (ha : aid ≠ 0) (hu : uid ≠ 0) :
    (favoriteBy db aid uid).2 = none
    ∧ (favoriteBy (favoriteBy db aid uid).1 aid uid).2 = none
    ∧ (pairCount db aid uid ≤ 1 →
        pairCount (favoriteBy (favoriteBy db aid uid).1 aid uid).1 aid uid = 1)
    ∧ (pairCount db aid uid = 0 → unFavoriteBy db aid uid = (db, none))
    ∧ (atMostOnePerPair db → atMostOnePerPair (favoriteBy db aid uid).1)
    ∧ (atMostOnePerPair db → atMostOnePerPair (unFavoriteBy db aid uid).1) := by
  have hred := favoriteBy_nonzero db aid uid ha hu
  refine ⟨?_, ?_, ?_, ?_, ?_, ?_⟩
  · rw [hred]
    cases hf : db.favorites.find?
        (fun f => f.favoriteID == aid && f.favoriteByID == uid) <;> rfl
  · rw [hred]
    cases hf : db.favorites.find?
        (fun f => f.favoriteID == aid && f.favoriteByID == uid) with
    | none =>
      dsimp only
      rw [favoriteBy_nonzero _ aid uid ha hu]
      have hnew : (db.favorites ++
          [(⟨db.nextFavoriteId, aid, uid⟩ : FavoriteModel)]).find?
          (fun f => f.favoriteID == aid && f.favoriteByID == uid) =
          some ⟨db.nextFavoriteId, aid, uid⟩ := by
        rw [List.find?_append, hf]
        simp
      rw [hnew]
    | some f =>
      dsimp only
      rw [favoriteBy_nonzero _ aid uid ha hu, hf]
  · intro hle
    rw [hred]
    cases hf : db.favorites.find?
        (fun f => f.favoriteID == aid && f.favoriteByID == uid) with
    | none =>
      dsimp only
      rw [favoriteBy_nonzero _ aid uid ha hu]
      have hnew : (db.favorites ++
          [(⟨db.nextFavoriteId, aid, uid⟩ : FavoriteModel)]).find?
          (fun f => f.favoriteID == aid && f.favoriteByID == uid) =
          some ⟨db.nextFavoriteId, aid, uid⟩ := by
        rw [List.find?_append, hf]
        simp
      rw [hnew]
      dsimp only
      rw [pairCount, List.filter_append]
      have h0 : db.favorites.filter
          (fun f => f.favoriteID == aid && f.favoriteByID == uid) = [] :=
        List.filter_eq_nil_iff.mpr (List.find?_eq_none.mp hf)
      rw [h0]
      simp
    | some f =>
      dsimp only
      rw [favoriteBy_nonzero _ aid uid ha hu, hf]
      dsimp only
      have hpf := List.find?_some hf
      have hmem : f ∈ db.favorites.filter
          (fun f => f.favoriteID == aid && f.favoriteByID == uid) :=
        List.mem_filter.mpr ⟨List.mem_of_find?_eq_some hf, hpf⟩
      have hpos : 0 < pairCount db aid uid := by
        rw [pairCount]
        exact List.length_pos.mpr (List.ne_nil_of_mem hmem)
      rw [pairCount] at *
      omega
  · intro h0
    have hkeep : db.favorites.filter
        (fun f => !(f.favoriteID == aid && f.favoriteByID == uid)) =
        db.favorites := by
      refine List.filter_eq_self.mpr (fun f hf => ?_)
      have := (pairCount_eq_zero_iff db aid uid).mp h0 f hf
      simp only [Bool.not_eq_true'] at *
      exact Bool.not_eq_true _ ▸ (by simpa using this)
    rw [unFavoriteBy, hkeep]
  · intro hinv a u
    rw [hred]
    cases hf : db.favorites.find?
        (fun f => f.favoriteID == aid && f.favoriteByID == uid) with
    | some f => exact hinv a u
    | none =>
      dsimp only
      rw [pairCount, List.filter_append]
      by_cases hmatch :
          ((⟨db.nextFavoriteId, aid, uid⟩ : FavoriteModel).favoriteID == a &&
            (⟨db.nextFavoriteId, aid, uid⟩ : FavoriteModel).favoriteByID == u) = true
      · have hau : a = aid ∧ u = uid := by
          simp only [Bool.and_eq_true, beq_iff_eq] at hmatch
          exact ⟨hmatch.1.symm, hmatch.2.symm⟩
        obtain ⟨rfl, rfl⟩ := hau
        have h0 : db.favorites.filter
            (fun f => f.favoriteID == a && f.favoriteByID == u) = [] :=
          List.filter_eq_nil_iff.mpr (List.find?_eq_none.mp hf)
        rw [h0]
        simp
      · have h1 : List.filter
            (fun f => f.favoriteID == a && f.favoriteByID == u)
            [(⟨db.nextFavoriteId, aid, uid⟩ : FavoriteModel)] = [] := by
          simp only [List.filter, hmatch]
        rw [h1, List.append_nil]
        exact hinv a u
  · intro hinv a u
    have hsub : List.Sublist
        ((unFavoriteBy db aid uid).1.favorites.filter
          (fun f => f.favoriteID == a && f.favoriteByID == u))
        (db.favorites.filter
          (fun f => f.favoriteID == a && f.favoriteByID == u)) := by
      rw [unFavoriteBy]
      exact List.Sublist.filter _ (List.filter_sublist _)
    calc pairCount (unFavoriteBy db aid uid).1 a u
        ≤ pairCount db a u := hsub.length_le
      _ ≤ 1 := hinv a u

/-- Witness for C7: starting from the two-author store (no favorite rows),
favoriting article 1 by author 2 twice yields exactly one row for the pair,
and unfavoriting pair (2, 2), which has no row, is an error-free no-op. -/
theorem C7_favorite_pair_invariant_witness :
    pairCount (favoriteBy (favoriteBy dbTwoAuthors 1 2).1 1 2).1 1 2 = 1
    ∧ unFavoriteBy dbTwoAuthors 2 2 = (dbTwoAuthors, none) :=
  ⟨(C7_favorite_pair_invariant dbTwoAuthors 1 2 (by decide)
      (by decide)).2.2.1 (by decide),
   (C7_favorite_pair_invariant dbTwoAuthors 2 2 (by decide)
      (by decide)).2.2.2.1 (by decide)⟩

end RealWorld

namespace RealWorld

/-- C10: an author- or favorited-filtered listing for an existing user with
no ArticleAuthor row yet creates that row (find-or-create on the base
connection, outside the listing transaction, so it persists for every fault
outcome including a failed association fetch), changes nothing else in the
store, and later resolutions of the same user find the created row instead
of creating another. -/
theorem C10_listing_creates_article_author (db : DB) (fault : Fault)
    (author limit offset : String) (u : UserModel)
    (hfind : db.users.find? (fun x => x.username == author) = some u)
    (hid : u.id ≠ 0)
    (habsent : db.articleUsers.find? (fun x => x.userModelID == u.id) = none)
    (ha : author ≠ "") :
    ((FindManyArticle db fault "" author limit offset "").1.articleUsers =
        db.articleUsers ++ [⟨db.nextArticleUserId, u.id⟩]
      ∧ (FindManyArticle db fault "" author limit offset "").1.articles =
        db.articles
      ∧ (FindManyArticle db fault "" author limit offset "").1.tags = db.tags
      ∧ (FindManyArticle db fault "" author limit offset "").1.favorites =
        db.favorites
      ∧ (FindManyArticle db fault "" author limit offset "").1.users = db.users
      ∧ (FindManyArticle db fault "" author limit offset "").1.articleTags =
        db.articleTags)
    ∧ (FindManyArticle db fault "" "" limit offset author).1 =
      (FindManyArticle db fault "" author limit offset "").1
    ∧ GetArticleUserModel (FindManyArticle db fault "" author limit offset "").1
        u =
      ((FindManyArticle db fault "" author limit offset "").1,
        ⟨db.nextArticleUserId, u.id⟩)
    ∧ (FindManyArticle (FindManyArticle db fault "" author limit offset "").1
        fault "" author limit offset "").1 =
      (FindManyArticle db fault "" author limit offset "").1 := by
  have hg : GetArticleUserModel db u =
      ({ db with
          articleUsers := db.articleUsers ++ [⟨db.nextArticleUserId, u.id⟩],
          nextArticleUserId := db.nextArticleUserId + 1 },
        ⟨db.nextArticleUserId, u.id⟩) := by
    rw [GetArticleUserModel, if_neg hid, habsent]
  have h1 : ∀ oi li : Int, (authorPath db fault author oi li).1 =
      { db with
          articleUsers := db.articleUsers ++ [⟨db.nextArticleUserId, u.id⟩],
          nextArticleUserId := db.nextArticleUserId + 1 } := by
    intro oi li
    unfold authorPath
    rw [hfind]
    simp only [Option.getD_some]
    rw [hg]
    dsimp only
    repeat' split
    all_goals rfl
  have h2 : ∀ oi li : Int, (favoritedPath db fault author oi li).1 =
      { db with
          articleUsers := db.articleUsers ++ [⟨db.nextArticleUserId, u.id⟩],
          nextArticleUserId := db.nextArticleUserId + 1 } := by
    intro oi li
    unfold favoritedPath
    rw [hfind]
    simp only [Option.getD_some]
    rw [hg]
    dsimp only
    repeat' split
    all_goals rfl
  have hfm : (FindManyArticle db fault "" author limit offset "").1 =
      { db with
          articleUsers := db.articleUsers ++ [⟨db.nextArticleUserId, u.id⟩],
          nextArticleUserId := db.nextArticleUserId + 1 } := by
    have hstep : FindManyArticle db fault "" author limit offset "" =
        authorPath db fault author
          (match atoi offset with | some v => v | none => 0)
          (match atoi limit with | some v => v | none => 20) := by
      simp [FindManyArticle, ha]
    rw [hstep, h1]
  have hfv : (FindManyArticle db fault "" "" limit offset author).1 =
      { db with
          articleUsers := db.articleUsers ++ [⟨db.nextArticleUserId, u.id⟩],
          nextArticleUserId := db.nextArticleUserId + 1 } := by
    have hstep : FindManyArticle db fault "" "" limit offset author =
        favoritedPath db fault author
          (match atoi offset with | some v => v | none => 0)
          (match atoi limit with | some v => v | none => 20) := by
      simp [FindManyArticle, ha]
    rw [hstep, h2]
  have hnewfind :
      ({ db with
          articleUsers := db.articleUsers ++ [⟨db.nextArticleUserId, u.id⟩],
          nextArticleUserId := db.nextArticleUserId + 1 } : DB).articleUsers.find?
        (fun x => x.userModelID == u.id) =
      some ⟨db.nextArticleUserId, u.id⟩ := by
    dsimp only
    rw [List.find?_append, habsent]
    simp
  have hg2 : GetArticleUserModel
      { db with
          articleUsers := db.articleUsers ++ [⟨db.nextArticleUserId, u.id⟩],
          nextArticleUserId := db.nextArticleUserId + 1 } u =
      ({ db with
          articleUsers := db.articleUsers ++ [⟨db.nextArticleUserId, u.id⟩],
          nextArticleUserId := db.nextArticleUserId + 1 },
        ⟨db.nextArticleUserId, u.id⟩) := by
    rw [GetArticleUserModel, if_neg hid, hnewfind]
  have h1' : ∀ oi li : Int,
      (authorPath
        { db with
            articleUsers := db.articleUsers ++ [⟨db.nextArticleUserId, u.id⟩],
            nextArticleUserId := db.nextArticleUserId + 1 }
        fault author oi li).1 =
      { db with
          articleUsers := db.articleUsers ++ [⟨db.nextArticleUserId, u.id⟩],
          nextArticleUserId := db.nextArticleUserId + 1 } := by
    intro oi li
    unfold authorPath
    dsimp only
    rw [hfind]
    simp only [Option.getD_some]
    rw [hg2]
    dsimp only
    repeat' split
    all_goals rfl
  refine ⟨⟨?_, ?_, ?_, ?_, ?_, ?_⟩, ?_, ?_, ?_⟩
  · rw [hfm]
  · rw [hfm]
  · rw [hfm]
  · rw [hfm]
  · rw [hfm]
  · rw [hfm]
  · rw [hfm, hfv]
  · rw [hfm, hg2]
  · rw [hfm]
    have hstep : FindManyArticle
        { db with
            articleUsers := db.articleUsers ++ [⟨db.nextArticleUserId, u.id⟩],
            nextArticleUserId := db.nextArticleUserId + 1 }
        fault "" author limit offset "" =
        authorPath
          { db with
              articleUsers := db.articleUsers ++ [⟨db.nextArticleUserId, u.id⟩],
              nextArticleUserId := db.nextArticleUserId + 1 }
          fault author
          (match atoi offset with | some v => v | none => 0)
          (match atoi limit with | some v => v | none => 20) := by
      simp [FindManyArticle, ha]
    rw [hstep, h1']

/-- Store where user "C" (id 3) exists but has no ArticleAuthor row. -/
def dbUserNoAuthorRow : DB :=
  { users := [⟨1, "A"⟩, ⟨3, "C"⟩], articleUsers := [⟨1, 1⟩],
    articles := [⟨1, "a", "a", "", "", 1, 1⟩],
    tags := [], articleTags := [], favorites := [], comments := [],
    follows := [],
    nextArticleUserId := 2, nextTagId := 1, nextFavoriteId := 1 }

/-- Witness for C10: listing by author "C" creates ArticleAuthor row (2, 3)
and leaves the article table unchanged, and a repeated call resolves to the
same row without creating another. -/
theorem C10_listing_creates_article_author_witness :
    (FindManyArticle dbUserNoAuthorRow noFault "" "C" "10" "0" "").1.articleUsers
      = dbUserNoAuthorRow.articleUsers ++ [⟨2, 3⟩]
    ∧ (FindManyArticle dbUserNoAuthorRow noFault "" "C" "10" "0" "").1.articles
      = dbUserNoAuthorRow.articles
    ∧ (FindManyArticle
        (FindManyArticle dbUserNoAuthorRow noFault "" "C" "10" "0" "").1
        noFault "" "C" "10" "0" "").1 =
      (FindManyArticle dbUserNoAuthorRow noFault "" "C" "10" "0" "").1 := by
  have h := C10_listing_creates_article_author dbUserNoAuthorRow noFault "C"
    "10" "0" ⟨3, "C"⟩ (by decide) (by decide) (by decide) (by decide)
  exact ⟨h.1.1, h.1.2.1, h.2.2.2⟩

end RealWorld
